import Mathlib

/-!
Verification of the oppo_cloud_tracker client against its specification.

Shallow embedding of custom_components/oppo_cloud_tracker/api.py,
data.py and gcj2wgs.py.  Python floats are idealised as exact field
elements (rationals where concrete evaluation is needed); blocking
Selenium waits are modelled by their observable outcome (the waited-for
condition held within the bound, or the wait timed out); the external
Python float() parser and the numeric coordinate transform are taken as
parameters where only their success/failure shape matters.
-/

/-- Python exception values reachable in the client.  The first three
constructors model the client's own error hierarchy from api.py lines
30-51 (OppoCloudApiClientError and its Communication/Authentication
subclasses; the two subclasses prepend "when " to the stored context,
we carry the raw context string).  The remaining constructors model
external exceptions: selenium TimeoutException and WebDriverException,
and Python's TypeError / ValueError / AttributeError. -/
inductive PyErr where
  | client (msg : String)
  | comm (context : String)
  | auth (context : String)
  | timeoutExc (msg : String)
  | webDriverExc (msg : String)
  | typeErr
  | valueErr
  | attrErr (msg : String)
  | otherExc (msg : String)
  deriving DecidableEq, Repr

/-- The OppoCloudDevice dataclass from data.py: seven fields, none of
which has a default value. -/
structure OppoCloudDevice where
  device_model : String
  location_name : String
  latitude : Option ℚ
  longitude : Option ℚ
  battery_level : Int
  last_seen : Option String
  is_online : Bool
  deriving DecidableEq, Repr

/-- Calling the generated dataclass constructor: each argument is
required; an Option value of none means the call site did not supply
that keyword argument, which raises TypeError in Python. -/
def constructDevice (device_model : Option String) (location_name : Option String)
    (latitude : Option (Option ℚ)) (longitude : Option (Option ℚ))
    (battery_level : Option Int) (last_seen : Option (Option String))
    (is_online : Option Bool) : Except PyErr OppoCloudDevice :=
  match device_model, location_name, latitude, longitude,
        battery_level, last_seen, is_online with
  | some a, some b, some c, some d, some e, some f, some g =>
      .ok ⟨a, b, c, d, e, f, g⟩
  | _, _, _, _, _, _, _ => .error .typeErr

/-- One raw entry of window.findVm.deviceList, with each vendor field
optional (absent key modelled as none); string-valued fields are
assumed well-typed when present. -/
structure RawDevice where
  deviceName : Option String
  poi : Option String
  simplePoi : Option String
  poiTime : Option String
  onlineStatus : Option Int
  locationStatus : Option String
  coordinate : Option String
  deriving DecidableEq, Repr

/-- A JavaScript value sitting in a lat/lng slot of a raw point: either
a number or something that makes Python arithmetic raise TypeError. -/
inductive JsNum where
  | num (q : ℚ)
  | notNum
  deriving DecidableEq, Repr

/-- One raw entry of window.findVm.points; the lat / lng keys may be
absent. A whole point may additionally be null (falsy), which the
parser models as an outer none in the points list. -/
structure RawPoint where
  lat : Option JsNum
  lng : Option JsNum
  deriving DecidableEq, Repr

/-- Python "c in s" membership of a single character in a string. -/
def pyContainsChar (s : String) (c : Char) : Bool := s.data.contains c

/-- Strip leading and trailing whitespace from a character list. -/
def pyStripChars (l : List Char) : List Char :=
  ((l.dropWhile Char.isWhitespace).reverse.dropWhile Char.isWhitespace).reverse

/-- Python s.strip(): remove leading and trailing whitespace. -/
def pyStrip (s : String) : String := ⟨pyStripChars s.data⟩

/-- Split a character list at the first occurrence of a non-empty
separator, returning the parts before and after it, or none when the
separator does not occur. -/
def findSplit (sep : List Char) : List Char → Option (List Char × List Char)
  | [] => if sep.isEmpty then some ([], []) else none
  | c :: rest =>
      if sep.isPrefixOf (c :: rest) then some ([], (c :: rest).drop sep.length)
      else
        match findSplit sep rest with
        | some (pre, post) => some (c :: pre, post)
        | none => none

/-- Python s.split(sep, 1): split at the first occurrence of sep only,
yielding one part when sep does not occur and exactly two otherwise. -/
def pySplit1 (s sep : String) : List String :=
  match findSplit sep.data s.data with
  | some (pre, post) => [⟨pre⟩, ⟨post⟩]
  | none => [s]

/-- Python truthiness-based "a or b" on strings. -/
def pyOrStr (a b : String) : String := if a = "" then b else a

/-- The POI-splitting block of _parse_device_data (api.py lines
378-385): poi is device.get("poi", "") or device.get("simplePoi", "");
when the middle-dot character U+00B7 occurs in poi the code unpacks
poi.split(" · ", 1) into two variables, stripping each part (a single
part raises ValueError); otherwise the whole stripped string is the
location name and last_seen comes from the separate poiTime field. -/
def parsePoiStr (poi : String) (poiTime : Option String) :
    Except PyErr (String × Option String) :=
  if pyContainsChar poi '·' then
    match pySplit1 poi " · " with
    | [a, b] => .ok (pyStrip a, some (pyStrip b))
    | _ => .error .valueErr
  else
    .ok (pyStrip poi, poiTime)

/-- The coordinate block of _parse_device_data (api.py lines 395-428).
pyFloat models Python float() on a string (none = ValueError); tf
models gcj2wgs on numeric inputs (total on numbers).  First the
positionally indexed point is tried: it must exist, be truthy, and own
both the lat and lng keys with numeric values, otherwise the caught
conversion failure leaves both coordinates None.  Then, only when
latitude is still None and the device has a coordinate key, the
"lat,lng" string is split and parsed; any caught ValueError leaves the
coordinates unchanged. -/
def pointCoordinates (tf : ℚ → ℚ → ℚ × ℚ)
    (points : List (Option RawPoint)) (idx : Nat) : Option ℚ × Option ℚ :=
  match points[idx]? with
  | some (some pt) =>
      match pt.lat, pt.lng with
      | some (.num la), some (.num lb) =>
          (some (tf la lb).1, some (tf la lb).2)
      | some _, some _ => (none, none)
      | _, _ => (none, none)
  | _ => (none, none)

/-- The coordinate block of _parse_device_data, continued: only when
latitude is still None and the device has a coordinate key is the
"lat,lng" string split and parsed; any caught ValueError leaves the
coordinate variables unchanged. -/
def parseCoordinates (pyFloat : String → Option ℚ) (tf : ℚ → ℚ → ℚ × ℚ)
    (device : RawDevice) (points : List (Option RawPoint)) (idx : Nat) :
    Option ℚ × Option ℚ :=
  match pointCoordinates tf points idx with
  | (none, lng0) =>
      match device.coordinate with
      | some cs =>
          if cs ≠ "" ∧ pyContainsChar cs ',' then
            match pySplit1 cs "," with
            | [latS, lngS] =>
                match pyFloat latS, pyFloat lngS with
                | some la, some lb => (some (tf la lb).1, some (tf la lb).2)
                | _, _ => (none, lng0)
            | _ => (none, lng0)
          else (none, lng0)
      | none => (none, lng0)
  | (some la, lng0) => (some la, lng0)

/-- One iteration of the parse loop in _parse_device_data (api.py lines
374-439): extract the model name, split the POI, derive the online
flag, compute coordinates, then call the OppoCloudDevice constructor.
The source call site supplies every keyword argument except
battery_level. -/
def parseOneDevice (pyFloat : String → Option ℚ) (tf : ℚ → ℚ → ℚ × ℚ)
    (points : List (Option RawPoint)) (idx : Nat) (device : RawDevice) :
    Except PyErr OppoCloudDevice := do
  let deviceModel := device.deviceName.getD "Unknown Device"
  let poi := pyOrStr (device.poi.getD "") (device.simplePoi.getD "")
  let (locationName, lastSeen) ← parsePoiStr poi device.poiTime
  let isOnline : Bool :=
    device.onlineStatus = some 1 ∨ device.locationStatus = some "online"
  let (latitude, longitude) := parseCoordinates pyFloat tf device points idx
  constructDevice (some deviceModel) (some locationName)
    (some latitude) (some longitude) none (some lastSeen) (some isOnline)

/-- The function _parse_device_data (api.py lines 358-441): enumerate the device
list, parsing each entry at its positional index. -/
def parseDeviceData (pyFloat : String → Option ℚ) (tf : ℚ → ℚ → ℚ × ℚ)
    (devices : List RawDevice) (points : List (Option RawPoint)) :
    Except PyErr (List OppoCloudDevice) :=
  go 0 devices
where
  go (idx : Nat) : List RawDevice → Except PyErr (List OppoCloudDevice)
    | [] => .ok []
    | d :: rest => do
        let r ← parseOneDevice pyFloat tf points idx d
        let rs ← go (idx + 1) rest
        .ok (r :: rs)

/-- The window.findVm state object of the device-location page:
deviceList and points properties may each be absent or null (none). A
present array, even empty, is truthy in JavaScript. -/
structure FindVm where
  deviceList : Option (List RawDevice)
  points : Option (List (Option RawPoint))
  deriving DecidableEq, Repr

/-- The observable state of the device-location page after navigation:
whether the current URL still starts with the find-page URL, and the
page's findVm state object if any. -/
structure Page where
  onFindUrl : Bool
  findVm : Option FindVm
  deriving DecidableEq, Repr

/-- The predicate polled by the 15-second WebDriverWait in
_get_devices_data: window.findVm and window.findVm.deviceList and
window.findVm.deviceList.length greater than 0 (an absent or null
object or property is falsy; a present empty array is truthy but has
length 0). -/
def waitCondition (p : Page) : Bool :=
  match p.findVm with
  | none => false
  | some vm =>
      match vm.deviceList with
      | none => false
      | some l => decide (0 < l.length)

/-- The atomic extraction script of _get_devices_data: returns null
when findVm or its deviceList or points property is missing, else the
pair of arrays. -/
def extractScript (p : Page) : Option (List RawDevice × List (Option RawPoint)) :=
  match p.findVm with
  | none => none
  | some vm =>
      match vm.deviceList, vm.points with
      | some ds, some ps => some (ds, ps)
      | _, _ => none

/-- The function _get_devices_data (api.py lines 313-356), with the page state
treated as fixed for the duration of the call: a redirected URL fails
with AuthenticationError immediately; a timeout of the wait (the
polled condition never holds) fails with the session-expired
AuthenticationError; a null extraction result returns the empty list;
otherwise the two arrays are parsed. -/
def getDevicesData (pyFloat : String → Option ℚ) (tf : ℚ → ℚ → ℚ × ℚ)
    (p : Page) : Except PyErr (List OppoCloudDevice) :=
  if ¬ p.onFindUrl then
    .error (.auth "not logged in or page redirected unexpectedly")
  else if ¬ waitCondition p then
    .error (.auth "no devices, maybe session expired?")
  else
    match extractScript p with
    | none => .ok []
    | some (ds, ps) => parseDeviceData pyFloat tf ds ps

/-- Result of one acquisition attempt in _get_or_create_driver: the new
value of the driver slot, what the call returns or raises, and the
address handed to the automation subsystem when a fresh connection was
attempted (none when the cached driver was reused). -/
structure AcquireRes (D : Type) where
  newDriver : Option D
  result : Except PyErr D
  attempted : Option String
  deriving Repr

/-- Whether an exception value is one of the client's own error kinds
(an instance of OppoCloudApiClientError or a subclass). -/
def isClientKind : PyErr → Bool
  | .client _ => true
  | .comm _ => true
  | .auth _ => true
  | _ => false

/-- The method _get_or_create_driver (api.py lines 81-114): a cached driver whose
session is still alive is returned as is; otherwise the configured URL
is stripped of surrounding whitespace only and handed verbatim to the
automation subsystem (ClientConfig remote_server_addr and
webdriver.Remote command_executor); a raised client-kind error is
re-raised unchanged, any other connection exception clears the slot
and is wrapped into a CommunicationError naming the address. -/
def getOrCreateDriver {D : Type} (driver : Option D) (alive : D → Bool)
    (connect : String → Except PyErr D) (rawUrl : String) : AcquireRes D :=
  match driver with
  | some d =>
      if alive d then ⟨some d, .ok d, none⟩
      else attempt
  | none => attempt
where
  attempt : AcquireRes D :=
    let url := pyStrip rawUrl
    match connect url with
    | .ok d => ⟨some d, .ok d, some url⟩
    | .error e =>
        if isClientKind e then ⟨none, .error e, some url⟩
        else ⟨none,
          .error (.comm ("connecting to remote browser at " ++ url)),
          some url⟩

/-- Outcome of driver.quit() inside async_cleanup. -/
inductive QuitOut where
  | ok
  | webDriverExc (msg : String)
  | otherExc (msg : String)
  deriving DecidableEq, Repr

/-- async_cleanup (api.py lines 116-131): with no driver the call
returns immediately; otherwise quit() is attempted, a raised
WebDriverException is suppressed, any other exception propagates, and
the finally block clears the driver slot in every case.  The returned
pair is the new driver slot and the exception propagated to the
caller, if any. -/
def asyncCleanup {D : Type} (driver : Option D) (quit : D → QuitOut) :
    Option D × Option PyErr :=
  match driver with
  | none => (none, none)
  | some d =>
      match quit d with
      | .ok => (none, none)
      | .webDriverExc _ => (none, none)
      | .otherExc m => (none, some (.otherExc m))

/-- Observable outcome of one bounded Selenium wait: the condition was
met within the bound, or the wait raised TimeoutException. -/
inductive StepRes where
  | ok
  | timeout
  deriving DecidableEq, Repr

/-- The environment a single _login_oppo_cloud run observes: the
driver-acquisition outcome, the outcome of each bounded wait in page
order, whether the top-level URL moved away from the login URL within
the final 10-second wait, and the texts collected by the injected
MutationObserver. -/
structure LoginEnv where
  acquire : Except PyErr Unit
  nav : StepRes
  tos : StepRes
  signIn : StepRes
  iframe : StepRes
  userField : StepRes
  passField : StepRes
  submitEnabled : StepRes
  agree : StepRes
  urlChanged : Bool
  captured : List String

/-- Split a character list into maximal whitespace-free words, as
Python s.split() with no argument does (empty strings dropped). -/
def pyWords (acc : List Char) : List Char → List (List Char)
  | [] => if acc.isEmpty then [] else [acc.reverse]
  | c :: rest =>
      if Char.isWhitespace c then
        if acc.isEmpty then pyWords [] rest
        else acc.reverse :: pyWords [] rest
      else pyWords (c :: acc) rest

/-- Python s.split() with no argument: split on whitespace runs,
dropping empty strings. -/
def pySplitWs (s : String) : List String :=
  (pyWords [] s.data).map (fun l => ⟨l⟩)

/-- Python " ".join(s.split()): collapse internal whitespace. -/
def pyNormalizeWs (s : String) : String :=
  String.intercalate " " (pySplitWs s)

/-- Python list(dict.fromkeys(xs)): deduplicate keeping the first
occurrence of each element, in order. -/
def pyDedup (xs : List String) : List String :=
  go [] xs
where
  go (seen : List String) : List String → List String
    | [] => []
    | x :: rest =>
        if x ∈ seen then go seen rest
        else x :: go (x :: seen) rest

/-- The AuthenticationError context built at step 8 of
_login_oppo_cloud when the URL never changes: each captured string is
whitespace-normalized, empties dropped, duplicates removed, and the
remainder joined; the "looks like" form is used whenever the raw
captured list was non-empty. -/
def loginFailureMsg (captured : List String) : String :=
  let clean := (captured.map pyNormalizeWs).filter (fun t => t ≠ "")
  let capturedStr := String.intercalate ", " (pyDedup clean)
  if captured = [] then "login" else "login, looks like " ++ capturedStr

/-- The method _login_oppo_cloud (api.py lines 150-285): acquire the driver,
navigate, optionally dismiss the ToS dialog (a timeout there is
suppressed), click Sign in, switch to the login iframe, fill the two
credential fields, wait for the submit button to become enabled and
click it, optionally dismiss the Agree-and-continue dialog (timeout
suppressed), then wait for the URL to change; only that last timeout
is converted into an AuthenticationError carrying the captured
diagnostics - every other wait lets its TimeoutException escape. -/
def loginSync (env : LoginEnv) : Except PyErr Unit :=
  match env.acquire with
  | .error e => .error e
  | .ok _ =>
    match env.nav with
    | .timeout => .error (.timeoutExc "navigating to login page")
    | .ok =>
      match env.signIn with
      | .timeout => .error (.timeoutExc "sign in button")
      | .ok =>
        match env.iframe with
        | .timeout => .error (.timeoutExc "login iframe")
        | .ok =>
          match env.userField with
          | .timeout => .error (.timeoutExc "username field")
          | .ok =>
            match env.passField with
            | .timeout => .error (.timeoutExc "password field")
            | .ok =>
              match env.submitEnabled with
              | .timeout => .error (.timeoutExc "submit button enabled")
              | .ok =>
                if env.urlChanged then .ok ()
                else .error (.auth (loginFailureMsg env.captured))

/-- async_login_oppo_cloud (api.py lines 133-148): the client's own
AuthenticationError and CommunicationError re-raise unchanged, a
selenium TimeoutException is wrapped into the base
OppoCloudApiClientError with a "login - " message, and any other
exception is wrapped into the base error with an "Unexpected login - "
message. -/
def asyncLogin (env : LoginEnv) : Except PyErr Unit :=
  match loginSync env with
  | .ok _ => .ok ()
  | .error (.auth m) => .error (.auth m)
  | .error (.comm m) => .error (.comm m)
  | .error (.timeoutExc m) => .error (.client ("login - " ++ m))
  | .error _ => .error (.client "Unexpected login - ")

/-- The environment observed by one _test_connection run: the
driver-acquisition outcome, whether navigation to the login page
raised, and the outcome of the 10-second wait for the body element. -/
structure TestEnv where
  acquire : Except PyErr Unit
  nav : Except PyErr Unit
  bodyWait : StepRes

/-- The method _test_connection (api.py lines 453-467): on success returns True;
on any exception the except branch calls self._cleanup_driver(), a
method that does not exist on the class, so an AttributeError replaces
the original exception and propagates. -/
def testConnectionSync (env : TestEnv) : Except PyErr Bool :=
  let attrMsg := "'OppoCloudApiClient' object has no attribute '_cleanup_driver'"
  match env.acquire with
  | .error _ => .error (.attrErr attrMsg)
  | .ok _ =>
    match env.nav with
    | .error _ => .error (.attrErr attrMsg)
    | .ok _ =>
      match env.bodyWait with
      | .timeout => .error (.attrErr attrMsg)
      | .ok => .ok true

/-- async_test_connection (api.py lines 443-451): any exception raised
by the synchronous test - of whatever kind - is wrapped into a new
CommunicationError with a "Connection test failed" context. -/
def asyncTestConnection (env : TestEnv) : Except PyErr Bool :=
  match testConnectionSync env with
  | .ok b => .ok b
  | .error _ => .error (.comm "Connection test failed - ")

/-- Outcome of one async_login_oppo_cloud call as seen by
async_get_data: success, or one of the client-kind errors that method
can raise. -/
inductive LoginOut where
  | ok
  | auth
  | comm
  | client
  deriving DecidableEq, Repr

/-- Outcome of one _get_devices_data call as seen by async_get_data:
a device list (abstracted to its length), the client's
AuthenticationError, a selenium TimeoutException, or any other
exception. -/
inductive ScrapeOut where
  | ok (devs : Nat)
  | auth
  | timeoutExc
  | exc
  deriving DecidableEq, Repr

/-- Possible results of async_get_data, abstracted to kinds. -/
inductive FetchErr where
  | auth
  | comm
  | client
  deriving DecidableEq, Repr

/-- The environment a fetch runs against: the keep-session flag and the
outcome of the n-th login call and the n-th scrape call (counted from
0 across the whole fetch, recursive re-entries included). -/
structure FetchEnv where
  keepSession : Bool
  login : Nat → LoginOut
  scrape : Nat → ScrapeOut

/-- The except-AuthenticationError handler of async_get_data: one more
login call; on its success the method re-invokes itself (the recursive
self-retry), while an exception raised by this login propagates to the
caller unchanged. -/
def recoverStep (env : FetchEnv)
    (retry : Nat → Nat → Option (Except FetchErr Nat × Nat × Nat))
    (l s : Nat) : Option (Except FetchErr Nat × Nat × Nat) :=
  match env.login l with
  | .ok => retry (l + 1) s
  | .auth => some (.error .auth, l + 1, s)
  | .comm => some (.error .comm, l + 1, s)
  | .client => some (.error .client, l + 1, s)

/-- async_get_data (api.py lines 287-311), instrumented with the number
of login calls and scrape calls performed.  When keep_session is off a
login precedes every scrape; an AuthenticationError from the try block
triggers the recovery handler (recoverStep), which recurses into
async_get_data itself; a selenium TimeoutException or any other
exception is wrapped into the base client error.  The fuel argument
bounds the recursion depth: none models non-termination. -/
def getData (env : FetchEnv) :
    Nat → Nat → Nat → Option (Except FetchErr Nat × Nat × Nat)
  | 0, _, _ => none
  | fuel + 1, l, s =>
    if env.keepSession then
      match env.scrape s with
      | .ok n => some (.ok n, l, s + 1)
      | .auth => recoverStep env (getData env fuel) l (s + 1)
      | .timeoutExc => some (.error .client, l, s + 1)
      | .exc => some (.error .client, l, s + 1)
    else
      match env.login l with
      | .ok =>
          match env.scrape s with
          | .ok n => some (.ok n, l + 1, s + 1)
          | .auth => recoverStep env (getData env fuel) (l + 1) (s + 1)
          | .timeoutExc => some (.error .client, l + 1, s + 1)
          | .exc => some (.error .client, l + 1, s + 1)
      | .auth => recoverStep env (getData env fuel) (l + 1) s
      | .comm => some (.error .client, l + 1, s)
      | .client => some (.error .client, l + 1, s)

section CoordinateTransform

variable {K : Type} [Field K]

/-- Semi-major axis constant earthR from gcj2wgs.py. -/
def earthR : K := 6378137

/-- The eccentricity-squared constant ee from gcj2wgs.py:
0.00669342162296594323 written as an exact fraction. -/
def eeConst : K := 669342162296594323 / 100000000000000000000

/-- The transform function of gcj2wgs.py (lines 9-31): the eviltransform
polynomial-plus-trigonometric offset expansion.  msin models math.sin,
msqrtAbs models the composite math.sqrt(abs(.)), and mpi models
math.pi; decimal coefficients are written as exact fractions (0.2 =
2/10, 0.1 = 1/10). -/
def transform (msin : K → K) (msqrtAbs : K → K) (mpi : K) (x y : K) : K × K :=
  let xy := x * y
  let absX := msqrtAbs x
  let xPi := x * mpi
  let yPi := y * mpi
  let d := 20 * msin (6 * xPi) + 20 * msin (2 * xPi)
  let lat := d
  let lng := d
  let lat := lat + 20 * msin yPi + 40 * msin (yPi / 3)
  let lng := lng + 20 * msin xPi + 40 * msin (xPi / 3)
  let lat := lat + 160 * msin (yPi / 12) + 320 * msin (yPi / 30)
  let lng := lng + 150 * msin (xPi / 12) + 300 * msin (xPi / 30)
  let lat := lat * (2 / 3)
  let lng := lng * (2 / 3)
  let lat := lat + (-100 + 2 * x + 3 * y + (2 / 10) * y * y
    + (1 / 10) * xy + (2 / 10) * absX)
  let lng := lng + (300 + x + 2 * y + (1 / 10) * x * x
    + (1 / 10) * xy + (1 / 10) * absX)
  (lat, lng)

/-- The delta function of gcj2wgs.py (lines 34-43): evaluate the offset
expansion at (lng - 105, lat - 35) and convert it to degrees with the
ellipsoid constants.  msqrt models math.sqrt. -/
def delta (msin mcos msqrt msqrtAbs : K → K) (mpi : K) (lat lng : K) : K × K :=
  let ee : K := eeConst
  let t := transform msin msqrtAbs mpi (lng - 105) (lat - 35)
  let dLat := t.1
  let dLng := t.2
  let radLat := lat / 180 * mpi
  let magic := msin radLat
  let magic := 1 - ee * magic * magic
  let sqrtMagic := msqrt magic
  let dLat := (dLat * 180) / ((earthR * (1 - ee)) / (magic * sqrtMagic) * mpi)
  let dLng := (dLng * 180) / (earthR / sqrtMagic * mcos radLat * mpi)
  (dLat, dLng)

/-- The gcj2wgs function of gcj2wgs.py (lines 46-48): subtract the
computed offset from the source coordinate. -/
def gcj2wgs (msin mcos msqrt msqrtAbs : K → K) (mpi : K) (gcjLat gcjLng : K) :
    K × K :=
  let d := delta msin mcos msqrt msqrtAbs mpi gcjLat gcjLng
  (gcjLat - d.1, gcjLng - d.2)

/-- The intermediate value 1 - ee * sin(radLat)^2 whose square root the
degree conversion divides by. -/
def magicVal (msin : K → K) (mpi : K) (lat : K) : K :=
  1 - eeConst * msin (lat / 180 * mpi) * msin (lat / 180 * mpi)

/-- Modelled from the spec (section 4.1): the offset pair evaluated at
x = lng - 105, y = lat - 35 is converted to degrees using the
meridional radius of curvature M = a(1-e^2)/W^3 for latitude and
N cos(phi) with N = a/W for longitude, where W = sqrt(1 - e^2
sin(phi)^2) and phi is the latitude in radians, and the offset is then
subtracted from the source coordinate. -/
def toTargetSystemSpec (msin mcos msqrt msqrtAbs : K → K) (mpi : K)
    (lat lng : K) : K × K :=
  let a : K := earthR
  let e2 : K := eeConst
  let t := transform msin msqrtAbs mpi (lng - 105) (lat - 35)
  let phi := lat / 180 * mpi
  let w := msqrt (1 - e2 * msin phi * msin phi)
  let bigM := a * (1 - e2) / (w * w * w)
  let bigN := a / w
  let dLat := t.1 * 180 / (mpi * bigM)
  let dLng := t.2 * 180 / (mpi * bigN * mcos phi)
  (lat - dLat, lng - dLng)

end CoordinateTransform

/-! Theorems settling the claims. -/

/-- Fetch environment in which every login succeeds and the scrape
fails with AuthenticationError twice before succeeding. -/
def envTwoAuthFailures : FetchEnv :=
  ⟨true, fun _ => .ok, fun s => if s < 2 then .auth else .ok 0⟩

/-- Claim C1: evaluating async_get_data where the scrape raises
AuthenticationError on its first two calls and succeeds on the third,
with every login succeeding.  The recursive self-retry performs a
second login and a third scrape and returns that scrape's devices,
instead of propagating the second consecutive AuthenticationError
after exactly one login and one retry as the claim states. -/
theorem getData_retries_after_second_auth_failure :
    getData envTwoAuthFailures 10 0 0 = some (.ok 0, 2, 3) := by rfl

/-- Raw device entry with a name and online status but no battery
information (the vendor data never carries one that this revision
reads). -/
def rawDeviceNoBattery : RawDevice :=
  ⟨some "A", none, none, none, some 1, none, none⟩

/-- Claim C2: evaluating the parser on a raw entry with no battery
field.  The OppoCloudDevice constructor call in _parse_device_data
omits the required battery_level argument, so construction raises
TypeError instead of producing a record with batteryLevel 0. -/
theorem parseDeviceData_missing_battery_is_typeerror :
    parseDeviceData (fun _ => none) (fun a b => (a, b)) [rawDeviceNoBattery] []
      = .error .typeErr := by rfl

/-- Device-location page whose state object exists with an explicitly
empty deviceList (and empty points). -/
def pageEmptyDeviceList : Page := ⟨true, some ⟨some [], some []⟩⟩

/-- Claim C3 counterexample: on a page whose state object exists with
an explicitly empty deviceList, the wait's polled condition (length
greater than zero) never holds, so scrape raises the session-expired
AuthenticationError rather than returning an empty result as a
success. -/
theorem getDevicesData_empty_list_is_auth_error :
    getDevicesData (fun _ => none) (fun a b => (a, b)) pageEmptyDeviceList
      = .error (.auth "no devices, maybe session expired?") := by rfl

/-- Claim C3 (amended): whenever the non-empty-device-list wait times
out - the state object absent, its deviceList property absent, or the
deviceList explicitly empty - scrape fails with the session-expired
AuthenticationError; the empty-list case is not distinguished. -/
theorem getDevicesData_timeout_is_auth_error (f : String → Option ℚ)
    (t : ℚ → ℚ → ℚ × ℚ) (p : Page) (h1 : p.onFindUrl = true)
    (h2 : waitCondition p = false) :
    getDevicesData f t p = .error (.auth "no devices, maybe session expired?") := by
  unfold getDevicesData
  rw [h1, h2]
  simp

/-- Claim C3 witness: the amended theorem applied to a page with the
state object entirely absent. -/
theorem getDevicesData_timeout_is_auth_error_witness :
    getDevicesData (fun _ => none) (fun a b => (a, b)) ⟨true, none⟩
      = .error (.auth "no devices, maybe session expired?") :=
  getDevicesData_timeout_is_auth_error _ _ _ rfl rfl

/-- Claim C4 counterexample: with no cached driver and the automation
subsystem echoing back the address it is handed, the endpoint
http://localhost:4444/wd/hub is handed through verbatim - the /wd/hub
suffix is not stripped, so the endpoint does not resolve to
http://localhost:4444. -/
theorem getOrCreateDriver_keeps_wdhub_suffix :
    (getOrCreateDriver (D := String) none (fun _ => true) (fun s => .ok s)
        "http://localhost:4444/wd/hub").attempted
        = some "http://localhost:4444/wd/hub"
      ∧ (getOrCreateDriver (D := String) none (fun _ => true) (fun s => .ok s)
        "http://localhost:4444/wd/hub").attempted
        ≠ some "http://localhost:4444" := by
  refine ⟨rfl, ?_⟩
  decide

/-- Claim C4 (amended): whenever a fresh connection is attempted, the
grid address handed to the automation subsystem is exactly the
configured endpoint URL with surrounding whitespace stripped; no
/wd/hub suffix or trailing slash is removed. -/
theorem getOrCreateDriver_address_is_trimmed_url {D : Type} (d : Option D)
    (alive : D → Bool) (connect : String → Except PyErr D) (u a : String)
    (h : (getOrCreateDriver d alive connect u).attempted = some a) :
    a = pyStrip u := by
  unfold getOrCreateDriver getOrCreateDriver.attempt at h
  rcases d with _ | d₀
  · simp only at h
    split at h <;> (try split at h) <;> simp_all
  · simp only at h
    split at h
    · simp_all
    · split at h <;> (try split at h) <;> simp_all

/-- Claim C4 witness: the amended theorem applied to a concrete
whitespace-padded endpoint. -/
theorem getOrCreateDriver_address_is_trimmed_url_witness :
    "http://localhost:4444/wd/hub" = pyStrip " http://localhost:4444/wd/hub " :=
  getOrCreateDriver_address_is_trimmed_url (D := String) none (fun _ => true)
    (fun s => .ok s) " http://localhost:4444/wd/hub "
    "http://localhost:4444/wd/hub" rfl

/-- Login environment in which the 10-second wait for the sign-in
affordance (step 3) times out and everything else would succeed. -/
def loginEnvSignInTimeout : LoginEnv :=
  ⟨.ok (), .ok, .ok, .timeout, .ok, .ok, .ok, .ok, .ok, true, []⟩

/-- Claim C5 counterexample: a timeout at the sign-in affordance (one
of login steps 1-7) surfaces to the caller as the base
OppoCloudApiClientError - the client defines no distinct TimeoutError
kind - contradicting the claim that such timeouts surface as a
distinct kind and not as the base error. -/
theorem asyncLogin_step_timeout_is_base_error :
    asyncLogin loginEnvSignInTimeout
      = .error (.client "login - sign in button") := by rfl

/-- Claim C5 (amended): every selenium TimeoutException escaping the
synchronous login flow - that is, every bounded-wait timeout during
the non-suppressed waits of steps 1-7 - is wrapped by
async_login_oppo_cloud into the base OppoCloudApiClientError with a
"login - " message; it is neither an AuthenticationError nor a
CommunicationError. -/
theorem asyncLogin_timeout_wrapped_as_base (e : LoginEnv) (m : String)
    (h : loginSync e = .error (.timeoutExc m)) :
    asyncLogin e = .error (.client ("login - " ++ m)) := by
  unfold asyncLogin
  rw [h]

/-- Login environment in which navigation to the login page (step 1)
times out. -/
def loginEnvNavTimeout : LoginEnv :=
  ⟨.ok (), .timeout, .ok, .ok, .ok, .ok, .ok, .ok, .ok, true, []⟩

/-- Claim C5 witness: the amended theorem applied to the environment
where navigation times out. -/
theorem asyncLogin_timeout_wrapped_as_base_witness :
    asyncLogin loginEnvNavTimeout
      = .error (.client ("login - " ++ "navigating to login page")) :=
  asyncLogin_timeout_wrapped_as_base loginEnvNavTimeout
    "navigating to login page" rfl

/-- Claim C6 counterexample: a POI string containing the middle-dot
separator without surrounding spaces is not split; the unpacking of
the one-element split result raises ValueError, so the parser does not
tolerate optional spaces around the separator. -/
theorem parsePoiStr_middot_without_spaces_fails :
    parsePoiStr "人民广场·5分钟前" none = .error .valueErr := by rfl

/-- Claim C6 (amended): the parser recognises exactly the sequence
space, middle dot U+00B7, space.  The example splits as specified; the
full-width katakana middle dot U+30FB is not recognised as a
separator (the whole string becomes the location name and lastSeen
falls back to the poiTime field); and a POI without any middle dot is
returned whole. -/
theorem parsePoiStr_splits_on_spaced_middot :
    (parsePoiStr "人民广场 · 5分钟前" none = .ok ("人民广场", some "5分钟前"))
    ∧ (∀ t, parsePoiStr "人民广场 ・ 5分钟前" t = .ok ("人民广场 ・ 5分钟前", t))
    ∧ (∀ s t, pyContainsChar s '·' = false → parsePoiStr s t = .ok (pyStrip s, t)) := by
  refine ⟨rfl, fun t => rfl, fun s t h => ?_⟩
  unfold parsePoiStr
  simp [h]

/-- Claim C6 witness: the amended theorem's no-separator clause applied
to a concrete separator-free POI. -/
theorem parsePoiStr_splits_on_spaced_middot_witness :
    parsePoiStr "家" none = .ok ("家", none) :=
  parsePoiStr_splits_on_spaced_middot.2.2 "家" none rfl

/-- Claim C7: gcj2wgs returns exactly (lat - dLat, lng - dLng), the
offsets given by evaluating the eviltransform expansion at
x = lng - 105, y = lat - 35 and converting to degrees with semi-major
axis 6378137 and eccentricity-squared 0.00669342162296594323, the
latitude offset scaled by the meridional radius of curvature and the
longitude offset by N cos(latitude in radians) - provided the abstract
square root is a genuine square root at the one radicand the
conversion evaluates it on. -/
theorem gcj2wgs_matches_spec {K : Type} [Field K]
    (msin mcos msqrt msqrtAbs : K → K) (mpi lat lng : K)
    (h : msqrt (magicVal msin mpi lat) * msqrt (magicVal msin mpi lat)
      = magicVal msin mpi lat) :
    gcj2wgs msin mcos msqrt msqrtAbs mpi lat lng
      = toTargetSystemSpec msin mcos msqrt msqrtAbs mpi lat lng := by
  simp only [gcj2wgs, delta, toTargetSystemSpec, magicVal] at h ⊢
  rw [Prod.mk.injEq]
  constructor
  · revert h
    generalize msqrt (1 - eeConst * msin (lat / 180 * mpi) * msin (lat / 180 * mpi)) = w
    generalize (1 : K) - eeConst * msin (lat / 180 * mpi) * msin (lat / 180 * mpi) = m
    intro h
    rw [← h]
    ring
  · ring

/-- Claim C7 witness: the theorem applied over the rationals with the
zero sine, where the radicand is 1 and the identity square root is
correct. -/
theorem gcj2wgs_matches_spec_witness :
    gcj2wgs (K := ℚ) (fun _ => 0) id id id 3 30 116
      = toTargetSystemSpec (fun _ => 0) id id id 3 30 116 :=
  gcj2wgs_matches_spec (fun _ => 0) id id id 3 30 116
    (by norm_num [magicVal, eeConst])

/-- Helper for claim C8: the point-array phase of the coordinate block
assigns latitude and longitude together or not at all. -/
theorem pointCoordinates_both_or_none (t : ℚ → ℚ → ℚ × ℚ)
    (points : List (Option RawPoint)) (idx : Nat) :
    ((pointCoordinates t points idx).1 = none
      ↔ (pointCoordinates t points idx).2 = none) := by
  unfold pointCoordinates
  split
  · split <;> simp
  · simp

/-- Claim C8: for every device entry, points array, positional index,
float parser and coordinate transform, the latitude/longitude pair
computed by the coordinate block of _parse_device_data is either both
present or both absent - never one without the other. -/
theorem parseCoordinates_both_or_none (f : String → Option ℚ)
    (t : ℚ → ℚ → ℚ × ℚ) (d : RawDevice)
    (points : List (Option RawPoint)) (idx : Nat) :
    ((parseCoordinates f t d points idx).1 = none
      ↔ (parseCoordinates f t d points idx).2 = none) := by
  have hp := pointCoordinates_both_or_none t points idx
  unfold parseCoordinates
  rcases hq : pointCoordinates t points idx with ⟨a, b⟩
  rw [hq] at hp
  rcases a with _ | la
  · have hb : b = none := by simpa using hp
    subst hb
    rcases d.coordinate with _ | cs
    · simp
    · simp only
      split_ifs
      · split
        · split <;> simp
        · simp
      · simp
  · simpa using hp

/-- Claim C9: async_cleanup is idempotent and total - a call in the
Absent state is a no-op, the driver slot is cleared by every call
(even when quit fails), a WebDriverException raised by quit is
swallowed, and a second consecutive call is a no-op. -/
theorem asyncCleanup_idempotent_total {D : Type} (st : Option D)
    (q : D → QuitOut) :
    asyncCleanup (D := D) none q = (none, none)
    ∧ (asyncCleanup st q).1 = none
    ∧ (∀ d m, q d = .webDriverExc m → asyncCleanup (some d) q = (none, none))
    ∧ asyncCleanup (asyncCleanup st q).1 q = (none, none) := by
  have h1 : (asyncCleanup st q).1 = none := by
    rcases st with _ | d
    · rfl
    · cases hqd : q d <;> simp [asyncCleanup, hqd]
  refine ⟨rfl, h1, ?_, ?_⟩
  · intro d m hq
    simp [asyncCleanup, hq]
  · rw [h1]
    rfl

/-- Claim C9 witness: the theorem's swallowing clause applied to a
driver whose quit raises WebDriverException. -/
theorem asyncCleanup_idempotent_total_witness :
    asyncCleanup (some ()) (fun _ => QuitOut.webDriverExc "already closed")
      = (none, none) :=
  (asyncCleanup_idempotent_total (D := Unit) (some ())
    (fun _ => QuitOut.webDriverExc "already closed")).2.2.1 ()
    "already closed" rfl

/-- Claim C10: async_test_connection either returns True or raises a
fresh CommunicationError; every exception of the synchronous test -
including the client's own kinds, which the failure branch replaces
with an AttributeError for the non-existent _cleanup_driver method -
is wrapped by the outer handler. -/
theorem asyncTestConnection_true_or_comm (e : TestEnv) :
    asyncTestConnection e = .ok true
      ∨ asyncTestConnection e = .error (.comm "Connection test failed - ") := by
  rcases e with ⟨acq, nav, bw⟩
  rcases acq with ea | ua <;> rcases nav with en | un <;> cases bw <;>
    first
      | exact Or.inl rfl
      | exact Or.inr rfl
